import Mathlib

/-!
Verification of the gluetun-qbt-port-updater reconciliation loop.

The Go program polls a VPN gateway (gluetun) for its currently forwarded
port and pushes changes to the listen port of a torrent client
(qBittorrent).  This file gives a shallow embedding of the program:

- the JSON serialization and the HTTP request built by handleChangedPort;
- the decode step of getQBTSettings (json.Unmarshal into a struct with a
  single uint16 listen_port field; the HTTP status code is only logged);
- the body of the polling loop in main (tick), acting on the two tracked
  ports: lastPort (last observed forwarded port) and qbtPort (last applied
  listen port);
- the whole process as a trace of requests (run), driven by an environment
  that supplies the responses of the two services;
- the command-line flag handling of main, together with a model of the Go
  flag package sufficient to compare the registered default with the value
  a parse of the arguments would have produced.

Ports are modelled as Nat: the Go values are uint16 and the program only
compares them for equality, so no modular arithmetic arises.
-/

namespace GluetunQbt

/-- Endpoint path constants from the source. -/
def PORT_FORWARD_API : String := "/v1/openvpn/portforwarded"

def QBT_LOGIN_API : String := "/api/v2/auth/login"

def QBT_GET_PREFERENCES_API : String := "/api/v2/app/preferences"

def QBT_SET_PREFERENCES_API : String := "/api/v2/app/setPreferences"

/-- Go json.Marshal of qBittorrentSettings with ListenPort set: the struct
has a single field tagged listen_port, so the output is the object with the
decimal port as its only member. -/
def jsonMarshalSettings (port : Nat) : String :=
  "\x7b\"listen_port\":" ++ toString port ++ "\x7d"

/-- Characters Go url.QueryEscape leaves unescaped (mode encodeQueryComponent):
letters, digits, and the four unreserved marks. -/
def isUnreservedGo (c : Char) : Bool :=
  c.isAlphanum || c = '-' || c = '_' || c = '.' || c = '~'

/-- Uppercase hexadecimal digit, for percent escapes. -/
def hexDigitUpper (n : Nat) : Char :=
  if n < 10 then Char.ofNat (48 + n) else Char.ofNat (55 + n)

/-- Percent escape of a single (ASCII) character. -/
def percentEncodeChar (c : Char) : String :=
  String.mk ['%', hexDigitUpper (c.toNat / 16), hexDigitUpper (c.toNat % 16)]

/-- Go url.QueryEscape restricted to ASCII input: unreserved characters kept,
space mapped to +, everything else percent escaped. -/
def queryEscape (s : String) : String :=
  String.join (s.toList.map fun c =>
    if isUnreservedGo c then String.mk [c]
    else if c = ' ' then "+"
    else percentEncodeChar c)

/-- An HTTP request as the program assembles it: method, path, headers,
cookies attached via AddCookie, and the body text. -/
structure Request where
  method : String
  path : String
  headers : List (String × String)
  cookies : List String
  body : String
deriving DecidableEq

/-- The request handleChangedPort builds (part_000 lines 156-181): a POST to
the setPreferences path whose body is the literal text json= followed by the
json.Marshal output, with Content-Type application/x-www-form-urlencoded and
the given cookies attached.  Note that the JSON text is written into the
body as-is; url escaping is never applied to it. -/
def handleChangedPortRequest (cookies : List String) (port : Nat) : Request :=
  { method := "POST"
  , path := QBT_SET_PREFERENCES_API
  , headers := [("Content-Type", "application/x-www-form-urlencoded")]
  , cookies := cookies
  , body := "json=" ++ jsonMarshalSettings port }

/-- Modelled from the spec: the body the specification describes for the
set-preferences call, the JSON document percent-encoded as a form value
under the key json.  Kept separate from handleChangedPortRequest so the two
can be compared. -/
def setPortBodySpec (port : Nat) : String :=
  "json=" ++ queryEscape (jsonMarshalSettings port)

/-- Error result of handleChangedPort (part_000 lines 183-191): the call
succeeds exactly when the transport produced a response (some status) and
that status is 200.  none stands for a transport error. -/
def handleChangedPortOk : Option Nat → Bool
  | none => false
  | some status => status == 200

/-- The body returned by the preferences endpoint as far as the decode step
can distinguish it: either it fails json.Unmarshal, or it is a JSON object
in which the listen_port field is present with some value or absent. -/
inductive JsonBody where
  | malformed : JsonBody
  | obj : Option Nat → JsonBody
deriving DecidableEq

/-- Decode step of getQBTSettings (part_000 lines 68-97).  The function
receives the HTTP status code but only logs it: the result depends on the
body alone.  json.Unmarshal into the settings struct leaves a missing
listen_port field at its zero value, so an object without the field decodes
to 0; only a malformed body is an error (none). -/
def getQBTSettings (status : Nat) (body : JsonBody) : Option Nat :=
  match status, body with
  | _, JsonBody.malformed => none
  | _, JsonBody.obj lp => some (lp.getD 0)

/-- The working state of the polling loop in main: lastPort is the last
observed forwarded port (seeded from the initial gluetun fetch), qbtPort is
the tracked applied listen port (seeded from the initial preferences read). -/
structure LoopState where
  lastPort : Nat
  qbtPort : Nat
deriving DecidableEq

/-- Result of one loop iteration: the state afterwards (at the moment of
termination if the iteration was fatal), whether a set-preferences call was
issued, and whether the process terminated during the iteration. -/
structure TickOutcome where
  state : LoopState
  setCalled : Bool
  fatal : Bool
deriving DecidableEq

/-- One iteration of the polling loop body (part_000 lines 258-276) after a
successful fetch of the forwarded port.  setOk says whether the
handleChangedPort call, if issued, succeeds; on failure the process exits
via log.Fatal before qbtPort is reassigned. -/
def tick (s : LoopState) (port : Nat) (setOk : Bool) : TickOutcome :=
  let s1 := if s.lastPort ≠ port then { s with lastPort := port } else s
  if port ≠ s.qbtPort ∧ port ≠ 0 then
    if setOk then ⟨{ s1 with qbtPort := port }, true, false⟩
    else ⟨s1, true, true⟩
  else ⟨s1, false, false⟩

theorem tick_setCalled_iff (s : LoopState) (port : Nat) (setOk : Bool) :
    (tick s port setOk).setCalled = true ↔ port ≠ s.qbtPort ∧ port ≠ 0 := by
  by_cases h : port ≠ s.qbtPort ∧ port ≠ 0 <;> cases setOk <;> simp [tick, h]

theorem tick_qbtPort_of_not_ok (s : LoopState) (port : Nat) :
    (tick s port false).state.qbtPort = s.qbtPort := by
  by_cases h : port ≠ s.qbtPort ∧ port ≠ 0 <;>
    by_cases h2 : s.lastPort ≠ port <;> simp [tick, h, h2]

theorem tick_fatal_iff (s : LoopState) (port : Nat) (setOk : Bool) :
    (tick s port setOk).fatal = true ↔ (port ≠ s.qbtPort ∧ port ≠ 0) ∧ setOk = false := by
  by_cases h : port ≠ s.qbtPort ∧ port ≠ 0 <;> cases setOk <;> simp [tick, h]

theorem tick_state_of_set (s : LoopState) (port : Nat)
    (h : port ≠ s.qbtPort ∧ port ≠ 0) :
    (tick s port true).state = ⟨port, port⟩ := by
  by_cases h2 : s.lastPort ≠ port <;> simp_all [tick]

/-- A request the process issues, as visible at the interface of the two
services.  login carries the form credentials; getSettings and setPort carry
the cookie list the code attaches explicitly (part_000 lines 77-79 and
179-181); fetchPort is the gluetun port-forward GET, which carries nothing. -/
inductive Event where
  | login : String → String → Event
  | getSettings : List String → Event
  | fetchPort : Event
  | setPort : List String → Nat → Event
deriving DecidableEq

def Event.isLogin : Event → Bool
  | .login _ _ => true
  | _ => false

def Event.isSetPort : Event → Bool
  | .setPort _ _ => true
  | _ => false

/-- The cookies an event attaches to its request, when it is a request to
the torrent client that attaches any. -/
def Event.cookiesUsed : Event → Option (List String)
  | .getSettings cs => some cs
  | .setPort cs _ => some cs
  | _ => none

/-- An event pushing the sentinel port 0 to the torrent client. -/
def Event.pushesZero : Event → Bool
  | .setPort _ 0 => true
  | _ => false

/-- The configuration read from the environment that the claims depend on:
QBT_USERNAME and QBT_PASSWORD (empty username disables login). -/
structure Config where
  username : String
  password : String
deriving DecidableEq

/-- The behaviour of the two external services, as the process can observe
it.  loginResponse is none when the login fails (transport error or
non-200 status) and some cookies on success; settingsResponse is the status
and body of the preferences read (none: transport or read error);
initialFetch and fetchAt are the results of the gluetun port fetches (none:
transport, read or unmarshal error); setStatusAt is the status of the
set-preferences call a tick would issue (none: transport error). -/
structure Env where
  loginResponse : Option (List String)
  settingsResponse : Option (Nat × JsonBody)
  initialFetch : Option Nat
  fetchAt : Nat → Option Nat
  setStatusAt : Nat → Option Nat

/-- Outcome of the startup phase: the requests issued, and on success the
cookie list and the seeded loop state (none: the process exited via
log.Fatal during startup). -/
structure StartupOutcome where
  events : List Event
  result : Option (List String × LoopState)

/-- The startup steps after the login decision (part_000 lines 237-252):
read the preferences to seed qbtPort from listen_port, then do the initial
gluetun fetch to seed lastPort.  Any error is fatal. -/
def afterLogin (env : Env) (cookies : List String) :
    List Event × Option (List String × LoopState) :=
  match env.settingsResponse with
  | none => ([Event.getSettings cookies], none)
  | some sp =>
    match getQBTSettings sp.1 sp.2 with
    | none => ([Event.getSettings cookies], none)
    | some lp =>
      match env.initialFetch with
      | none => ([Event.getSettings cookies, Event.fetchPort], none)
      | some fp => ([Event.getSettings cookies, Event.fetchPort], some (cookies, ⟨fp, lp⟩))

/-- The startup phase of main (part_000 lines 226-252): login only when a
username is configured (a failed login is fatal), otherwise an empty cookie
list; then the preferences read and the initial fetch. -/
def runStartup (cfg : Config) (env : Env) : StartupOutcome :=
  if cfg.username ≠ "" then
    match env.loginResponse with
    | none => ⟨[Event.login cfg.username cfg.password], none⟩
    | some cookies =>
      ⟨Event.login cfg.username cfg.password :: (afterLogin env cookies).1,
       (afterLogin env cookies).2⟩
  else
    ⟨(afterLogin env []).1, (afterLogin env []).2⟩

/-- n iterations of the polling loop (part_000 lines 258-276), starting at
tick index i: each tick fetches the forwarded port (a failed fetch is
fatal), then runs the loop body; a set-preferences call that fails is fatal
after the request was issued. -/
def runTicks (cookies : List String) (env : Env) :
    LoopState → Nat → Nat → List Event × Option LoopState
  | s, _, 0 => ([], some s)
  | s, i, n + 1 =>
    match env.fetchAt i with
    | none => ([Event.fetchPort], none)
    | some p =>
      let o := tick s p (handleChangedPortOk (env.setStatusAt i))
      if o.fatal then
        (Event.fetchPort :: (if o.setCalled then [Event.setPort cookies p] else []), none)
      else
        (Event.fetchPort :: ((if o.setCalled then [Event.setPort cookies p] else [])
            ++ (runTicks cookies env o.state (i + 1) n).1),
         (runTicks cookies env o.state (i + 1) n).2)

/-- The whole process through n polling ticks: startup, then the loop. -/
def run (cfg : Config) (env : Env) (n : Nat) :
    List Event × Option (List String × LoopState) :=
  match runStartup cfg env with
  | ⟨evs, none⟩ => (evs, none)
  | ⟨evs, some (cookies, s)⟩ =>
    (evs ++ (runTicks cookies env s 0 n).1,
     (runTicks cookies env s 0 n).2.map fun s2 => (cookies, s2))

theorem afterLogin_events_mem (env : Env) (cookies : List String) (e : Event)
    (he : e ∈ (afterLogin env cookies).1) :
    e = Event.getSettings cookies ∨ e = Event.fetchPort := by
  rcases hs : env.settingsResponse with _ | sp
  · simp [afterLogin, hs] at he
    simp [he]
  · rcases hd : getQBTSettings sp.1 sp.2 with _ | lp
    · simp [afterLogin, hs, hd] at he
      simp [he]
    · rcases hf : env.initialFetch with _ | fp <;>
        simp [afterLogin, hs, hd, hf] at he <;> tauto

theorem afterLogin_result (env : Env) (cookies cs : List String) (s : LoopState)
    (h : (afterLogin env cookies).2 = some (cs, s)) :
    cs = cookies ∧
      ∃ st bd, env.settingsResponse = some (st, bd) ∧
        getQBTSettings st bd = some s.qbtPort ∧
        env.initialFetch = some s.lastPort := by
  rcases hs : env.settingsResponse with _ | ⟨st, bd⟩
  · simp [afterLogin, hs] at h
  · rcases hd : getQBTSettings st bd with _ | lp
    · simp [afterLogin, hs, hd] at h
    · rcases hf : env.initialFetch with _ | fp
      · simp [afterLogin, hs, hd, hf] at h
      · simp only [afterLogin, hs, hd, hf, Option.some.injEq, Prod.mk.injEq] at h
        obtain ⟨h1, h2⟩ := h
        subst h1
        subst h2
        exact ⟨rfl, st, bd, rfl, by simp [hd], by simp [hf]⟩

theorem runTicks_events_all (cookies : List String) (env : Env) (P : Event → Bool)
    (hF : P Event.fetchPort = true)
    (hS : ∀ p : Nat, p ≠ 0 → P (Event.setPort cookies p) = true) :
    ∀ (n : Nat) (s : LoopState) (i : Nat),
      ((runTicks cookies env s i n).1.all P) = true := by
  intro n
  induction n with
  | zero => intro s i; simp [runTicks]
  | succ n ih =>
    intro s i
    rcases hf : env.fetchAt i with _ | p
    · simp [runTicks, hf, hF]
    · by_cases hc : (tick s p (handleChangedPortOk (env.setStatusAt i))).setCalled = true
      · have hp : p ≠ 0 := ((tick_setCalled_iff _ _ _).1 hc).2
        by_cases hfat : (tick s p (handleChangedPortOk (env.setStatusAt i))).fatal = true
        · simp [runTicks, hf, hc, hfat, hF, hS p hp]
        · simp only [Bool.not_eq_true] at hfat
          simp [runTicks, hf, hc, hfat, hF, hS p hp, ih]
      · simp only [Bool.not_eq_true] at hc
        by_cases hfat : (tick s p (handleChangedPortOk (env.setStatusAt i))).fatal = true
        · simp [runTicks, hf, hc, hfat, hF]
        · simp only [Bool.not_eq_true] at hfat
          simp [runTicks, hf, hc, hfat, hF, ih]

theorem runStartup_events_mem (cfg : Config) (env : Env) (e : Event)
    (he : e ∈ (runStartup cfg env).events) :
    (cfg.username ≠ "" ∧ e = Event.login cfg.username cfg.password) ∨
    (∃ cs, e = Event.getSettings cs ∧
      ((cfg.username = "" ∧ cs = []) ∨
       (cfg.username ≠ "" ∧ env.loginResponse = some cs))) ∨
    e = Event.fetchPort := by
  by_cases hu : cfg.username = ""
  · simp only [runStartup, hu, ne_eq, not_true_eq_false, if_false] at he
    rcases afterLogin_events_mem env [] e he with h | h
    · exact Or.inr (Or.inl ⟨[], h, Or.inl ⟨hu, rfl⟩⟩)
    · exact Or.inr (Or.inr h)
  · rcases hl : env.loginResponse with _ | cs
    · simp [runStartup, hu, hl] at he
      exact Or.inl ⟨hu, he⟩
    · simp [runStartup, hu, hl] at he
      rcases he with he | he
      · exact Or.inl ⟨hu, he⟩
      · rcases afterLogin_events_mem env cs e he with h | h
        · exact Or.inr (Or.inl ⟨cs, h, Or.inr ⟨hu, rfl⟩⟩)
        · exact Or.inr (Or.inr h)

theorem runStartup_result (cfg : Config) (env : Env) (cookies : List String)
    (s : LoopState) (h : (runStartup cfg env).result = some (cookies, s)) :
    ((cfg.username = "" ∧ cookies = []) ∨
     (cfg.username ≠ "" ∧ env.loginResponse = some cookies)) ∧
      ∃ st bd, env.settingsResponse = some (st, bd) ∧
        getQBTSettings st bd = some s.qbtPort ∧
        env.initialFetch = some s.lastPort := by
  by_cases hu : cfg.username = ""
  · simp only [runStartup, hu, ne_eq, not_true_eq_false, if_false] at h
    obtain ⟨hc, rest⟩ := afterLogin_result env [] cookies s h
    exact ⟨Or.inl ⟨hu, hc⟩, rest⟩
  · rcases hl : env.loginResponse with _ | cs
    · simp [runStartup, hu, hl] at h
    · simp only [runStartup, hu, hl, ne_eq, not_false_eq_true, if_true] at h
      obtain ⟨hc, rest⟩ := afterLogin_result env cs cookies s h
      subst hc
      exact ⟨Or.inr ⟨hu, rfl⟩, rest⟩

theorem runStartup_login_count (cfg : Config) (env : Env) :
    ((runStartup cfg env).events.countP fun e => e.isLogin) =
      if cfg.username = "" then 0 else 1 := by
  have hAfter : ∀ cs, ((afterLogin env cs).1.countP fun e => e.isLogin) = 0 := by
    intro cs
    rw [List.countP_eq_zero]
    intro e he
    rcases afterLogin_events_mem env cs e he with h | h <;> simp [h, Event.isLogin]
  by_cases hu : cfg.username = ""
  · simp only [runStartup, hu, ne_eq, not_true_eq_false, if_false]
    simp [hAfter]
  · rcases hl : env.loginResponse with _ | cs
    · simp [runStartup, hu, hl, Event.isLogin]
    · simp only [runStartup, hu, hl, ne_eq, not_false_eq_true, if_true]
      rw [List.countP_cons, hAfter cs]
      simp [Event.isLogin, hu]

theorem run_events_mem (cfg : Config) (env : Env) (n : Nat) (e : Event)
    (he : e ∈ (run cfg env n).1) :
    e ∈ (runStartup cfg env).events ∨
      ∃ cookies s, (runStartup cfg env).result = some (cookies, s) ∧
        ∃ m i, e ∈ (runTicks cookies env s i m).1 := by
  unfold run at he
  rcases hr : runStartup cfg env with ⟨evs, res⟩
  rcases res with _ | cp
  · rw [hr] at he
    exact Or.inl he
  · rcases cp with ⟨cookies, s⟩
    rw [hr] at he
    simp only [List.mem_append] at he
    rcases he with he | he
    · exact Or.inl he
    · exact Or.inr ⟨cookies, s, rfl, n, 0, he⟩

/-- One second in nanoseconds, the Go time.Second constant. -/
def timeSecond : Nat := 1000000000

/-- The registered interval flag: the cell the Go flag package allocates at
registration, holding the default value until flag.Parse writes to it. -/
structure DurationFlag where
  value : Nat
deriving DecidableEq

/-- flag.Duration: registers the flag and returns a pointer whose pointee
holds defaultVal until a call to flag.Parse overwrites it. -/
def flagDuration (defaultVal : Nat) : DurationFlag := ⟨defaultVal⟩

/-- Restricted model of Go time.ParseDuration: a decimal number of seconds,
which covers the argument forms relevant to the interval flag. -/
def parseGoDuration (s : String) : Option Nat :=
  match s.toList.getLast? with
  | some 's' =>
    let ds := s.toList.dropLast
    if ds ≠ [] ∧ ds.all Char.isDigit then
      some ((ds.foldl (fun n c => n * 10 + (c.toNat - 48)) 0) * timeSecond)
    else none
  | _ => none

/-- Model of flag.Parse restricted to the single registered flag: scan the
arguments for -interval or --interval followed by a duration value; the
first well-formed occurrence sets the flag. -/
def flagParseInterval : List String → DurationFlag → DurationFlag
  | [], reg => reg
  | a :: rest, reg =>
    if a = "--interval" ∨ a = "-interval" then
      match rest with
      | v :: _ =>
        match parseGoDuration v with
        | some d => ⟨d⟩
        | none => reg
      | [] => reg
    else flagParseInterval rest reg

/-- The interval the flag package would report for the given arguments had
main called flag.Parse before dereferencing the registered flag. -/
def intervalIfParsed (args : List String) : Nat :=
  (flagParseInterval args (flagDuration timeSecond)).value

/-- part_000 line 211: interval is the immediate dereference of the pointer
returned by flag.Duration.  main never calls flag.Parse, so the pointee
still holds the default and the command-line arguments are never consulted;
this value is handed to time.NewTicker at line 257. -/
def mainInterval (_args : List String) : Nat :=
  (flagDuration timeSecond).value

/-- Whether an event attaches exactly the given cookie list whenever it
attaches cookies at all. -/
def usesCookies (cookies : List String) (e : Event) : Bool :=
  match e.cookiesUsed with
  | none => true
  | some cs => decide (cs = cookies)

/-- A configuration with no username: login disabled. -/
def cfgNoAuth : Config := ⟨"", ""⟩

/-- A configuration with credentials set. -/
def cfgAuth : Config := ⟨"admin", "adminadmin"⟩

/-- An environment where every call succeeds: login yields one cookie, the
preferences report listen_port 51413, the initial fetch returns 0, every
tick fetch returns 60000 and every set call returns status 200. -/
def envOk : Env :=
  { loginResponse := some ["SID=abc"]
  , settingsResponse := some (200, JsonBody.obj (some 51413))
  , initialFetch := some 0
  , fetchAt := fun _ => some 60000
  , setStatusAt := fun _ => some 200 }

/-- An environment whose preferences endpoint answers 500 with an empty
JSON object body. -/
def env500 : Env :=
  { loginResponse := none
  , settingsResponse := some (500, JsonBody.obj none)
  , initialFetch := some 51413
  , fetchAt := fun _ => some 51413
  , setStatusAt := fun _ => some 200 }

/-- Claim C1: on any tick, the set-preferences call is issued if and only if
the fetched port differs from the tracked applied listen port (qbtPort) and
is non-zero.  The right-hand side does not mention lastPort: a value that
differs only from the last observed port never triggers an update by
itself. -/
theorem c1_set_call_iff_differs_from_applied (s : LoopState) (port : Nat)
    (setOk : Bool) :
    (tick s port setOk).setCalled = true ↔ port ≠ s.qbtPort ∧ port ≠ 0 :=
  tick_setCalled_iff s port setOk

/-- Claim C2: in every run of the process, over any number of ticks and any
behaviour of the two services, no request ever writes listen port 0 to the
torrent client. -/
theorem c2_zero_never_pushed (cfg : Config) (env : Env) (n : Nat) :
    ((run cfg env n).1.all fun e => !e.pushesZero) = true := by
  rw [List.all_eq_true]
  intro e he
  rcases run_events_mem cfg env n e he with h | ⟨cookies, s, _, m, i, h⟩
  · rcases runStartup_events_mem cfg env e h with ⟨_, h2⟩ | ⟨cs, h2, _⟩ | h2 <;>
      simp [h2, Event.pushesZero]
  · have hall := runTicks_events_all cookies env (fun e => !e.pushesZero) rfl
      (by intro p hp
          cases p
          · exact absurd rfl hp
          · rfl) m s i
    exact (List.all_eq_true.1 hall) e h

/-- Claim C3: two consecutive successful fetches of the same non-zero port,
differing from the applied port before the first, issue exactly one
set-preferences call: the first tick issues it and advances qbtPort, the
second tick issues none. -/
theorem c3_same_fetch_twice_single_update (s : LoopState) (p : Nat)
    (hp : p ≠ 0) (hq : p ≠ s.qbtPort) :
    (tick s p true).setCalled = true ∧
    (tick (tick s p true).state p true).setCalled = false := by
  refine ⟨(tick_setCalled_iff s p true).2 ⟨hq, hp⟩, ?_⟩
  rw [tick_state_of_set s p ⟨hq, hp⟩]
  simp [tick]

theorem c3_witness :
    ((51413 : Nat) ≠ 0 ∧ (51413 : Nat) ≠ (LoopState.mk 0 0).qbtPort) ∧
    ((tick ⟨0, 0⟩ 51413 true).setCalled = true ∧
     (tick (tick ⟨0, 0⟩ 51413 true).state 51413 true).setCalled = false) :=
  ⟨⟨by decide, by decide⟩,
   c3_same_fetch_twice_single_update ⟨0, 0⟩ 51413 (by decide) (by decide)⟩

/-- Claim C4: when startup completes, the tracked applied listen port equals
exactly the listen_port value the initial preferences read decoded, and no
set-preferences request is issued during startup. -/
theorem c4_startup_seeds_applied_port (cfg : Config) (env : Env)
    (status : Nat) (body : JsonBody) (lp : Nat) (cookies : List String)
    (s : LoopState)
    (hs : env.settingsResponse = some (status, body))
    (hd : getQBTSettings status body = some lp)
    (hr : (runStartup cfg env).result = some (cookies, s)) :
    s.qbtPort = lp ∧
    ((runStartup cfg env).events.all fun e => !e.isSetPort) = true := by
  obtain ⟨_, st, bd, hsp, hdec, _⟩ := runStartup_result cfg env cookies s hr
  constructor
  · rw [hs] at hsp
    simp only [Option.some.injEq, Prod.mk.injEq] at hsp
    obtain ⟨h1, h2⟩ := hsp
    subst h1
    subst h2
    rw [hd] at hdec
    injection hdec with hdec
    exact hdec.symm
  · rw [List.all_eq_true]
    intro e he
    rcases runStartup_events_mem cfg env e he with ⟨_, h2⟩ | ⟨cs, h2, _⟩ | h2 <;>
      simp [h2, Event.isSetPort]

theorem c4_witness :
    (envOk.settingsResponse = some (200, JsonBody.obj (some 51413)) ∧
     getQBTSettings 200 (JsonBody.obj (some 51413)) = some 51413 ∧
     (runStartup cfgNoAuth envOk).result = some ([], ⟨0, 51413⟩)) ∧
    ((LoopState.mk 0 51413).qbtPort = 51413 ∧
     ((runStartup cfgNoAuth envOk).events.all fun e => !e.isSetPort) = true) :=
  ⟨⟨rfl, rfl, rfl⟩,
   c4_startup_seeds_applied_port cfgNoAuth envOk 200 (JsonBody.obj (some 51413))
     51413 [] ⟨0, 51413⟩ rfl rfl rfl⟩

/-- Claim C5: when the set-preferences call fails (transport error or
non-200 status), the tick that issued it is fatal and the tracked applied
port is unchanged at termination: qbtPort is reassigned only after the call
returns success. -/
theorem c5_failed_set_is_fatal_applied_unchanged (s : LoopState) (p : Nat)
    (resp : Option Nat) (h1 : p ≠ s.qbtPort) (h2 : p ≠ 0)
    (hfail : handleChangedPortOk resp = false) :
    (tick s p (handleChangedPortOk resp)).setCalled = true ∧
    (tick s p (handleChangedPortOk resp)).fatal = true ∧
    (tick s p (handleChangedPortOk resp)).state.qbtPort = s.qbtPort := by
  rw [hfail]
  exact ⟨(tick_setCalled_iff s p false).2 ⟨h1, h2⟩,
         (tick_fatal_iff s p false).2 ⟨⟨h1, h2⟩, rfl⟩,
         tick_qbtPort_of_not_ok s p⟩

theorem c5_witness :
    ((51413 : Nat) ≠ (LoopState.mk 0 10).qbtPort ∧ (51413 : Nat) ≠ 0 ∧
     handleChangedPortOk (some 500) = false) ∧
    ((tick ⟨0, 10⟩ 51413 (handleChangedPortOk (some 500))).setCalled = true ∧
     (tick ⟨0, 10⟩ 51413 (handleChangedPortOk (some 500))).fatal = true ∧
     (tick ⟨0, 10⟩ 51413 (handleChangedPortOk (some 500))).state.qbtPort =
       (LoopState.mk 0 10).qbtPort) :=
  ⟨⟨by decide, by decide, by decide⟩,
   c5_failed_set_is_fatal_applied_unchanged ⟨0, 10⟩ 51413 (some 500)
     (by decide) (by decide) (by decide)⟩

/-- Claim C6 fails on the code: at port 51413 the body handleChangedPort
sends is not the percent-encoded form value the claim describes, because
the JSON text is written into the body verbatim. -/
theorem c6_counterexample :
    (handleChangedPortRequest [] 51413).body ≠ setPortBodySpec 51413 := by
  decide

/-- Claim C6 as amended: the request handleChangedPort builds is a POST to
the setPreferences path with Content-Type application/x-www-form-urlencoded
and the given cookies, whose body is the literal text json= followed by the
raw (unescaped) JSON document with the port as listen_port. -/
theorem c6_amended_raw_json_body (cookies : List String) (port : Nat) :
    (handleChangedPortRequest cookies port).body =
      "json=" ++ jsonMarshalSettings port ∧
    (handleChangedPortRequest cookies port).method = "POST" ∧
    (handleChangedPortRequest cookies port).path = QBT_SET_PREFERENCES_API ∧
    (handleChangedPortRequest cookies port).headers =
      [("Content-Type", "application/x-www-form-urlencoded")] ∧
    (handleChangedPortRequest cookies port).cookies = cookies :=
  ⟨rfl, rfl, rfl, rfl, rfl⟩

/-- Claim C7: with an empty username, no run of the process ever issues a
login request, and every request that attaches cookies attaches the empty
cookie list. -/
theorem c7_no_username_no_login_no_cookies (cfg : Config) (env : Env)
    (n : Nat) (hu : cfg.username = "") :
    ((run cfg env n).1.all fun e => !e.isLogin && usesCookies [] e) = true := by
  rw [List.all_eq_true]
  intro e he
  rcases run_events_mem cfg env n e he with h | ⟨cookies, s, hr, m, i, h⟩
  · rcases runStartup_events_mem cfg env e h with ⟨hne, _⟩ | ⟨cs, hcs, hor⟩ | h2
    · exact absurd hu hne
    · rcases hor with ⟨_, hcs0⟩ | ⟨hne, _⟩
      · subst hcs0
        simp [hcs, Event.isLogin, usesCookies, Event.cookiesUsed]
      · exact absurd hu hne
    · simp [h2, Event.isLogin, usesCookies, Event.cookiesUsed]
  · obtain ⟨hck, _⟩ := runStartup_result cfg env cookies s hr
    rcases hck with ⟨_, hck⟩ | ⟨hne, _⟩
    · subst hck
      have hall := runTicks_events_all [] env
        (fun e => !e.isLogin && usesCookies [] e) rfl (fun p hp => rfl) m s i
      exact (List.all_eq_true.1 hall) e h
    · exact absurd hu hne

theorem c7_witness :
    cfgNoAuth.username = "" ∧
    ((run cfgNoAuth envOk 2).1.all fun e => !e.isLogin && usesCookies [] e)
      = true :=
  ⟨rfl, c7_no_username_no_login_no_cookies cfgNoAuth envOk 2 rfl⟩

theorem run_login_count (cfg : Config) (env : Env) (n : Nat) :
    ((run cfg env n).1.countP fun e => e.isLogin) =
      if cfg.username = "" then 0 else 1 := by
  unfold run
  rcases hr : runStartup cfg env with ⟨evs, res⟩
  have h1 := runStartup_login_count cfg env
  rw [hr] at h1
  rcases res with _ | ⟨cookies, s⟩
  · exact h1
  · have h2 : ((runTicks cookies env s 0 n).1.countP fun e => e.isLogin) = 0 := by
      rw [List.countP_eq_zero]
      intro e he
      have hall := runTicks_events_all cookies env (fun e => !e.isLogin) rfl
        (fun p hp => rfl) n s 0
      have := (List.all_eq_true.1 hall) e he
      simpa using this
    simp only [List.countP_append, h2]
    simpa using h1

/-- Claim C8: once the single startup login succeeds, the cookie set it
returned is attached to every request that attaches cookies, and no run of
the process issues more than one login request. -/
theorem c8_session_fixed_single_login (cfg : Config) (env : Env) (n : Nat)
    (cs : List String) (hu : cfg.username ≠ "")
    (hl : env.loginResponse = some cs) :
    ((run cfg env n).1.countP fun e => e.isLogin) ≤ 1 ∧
    ((run cfg env n).1.all fun e => usesCookies cs e) = true := by
  constructor
  · rw [run_login_count]
    split <;> omega
  · rw [List.all_eq_true]
    intro e he
    rcases run_events_mem cfg env n e he with h | ⟨cookies, s, hr, m, i, h⟩
    · rcases runStartup_events_mem cfg env e h with ⟨_, hle⟩ | ⟨cs2, hcs, hor⟩ | h2
      · simp [hle, usesCookies, Event.cookiesUsed]
      · rcases hor with ⟨he0, _⟩ | ⟨_, hl2⟩
        · exact absurd he0 hu
        · rw [hl] at hl2
          injection hl2 with hl2
          subst hl2
          simp [hcs, usesCookies, Event.cookiesUsed]
      · simp [h2, usesCookies, Event.cookiesUsed]
    · obtain ⟨hck, _⟩ := runStartup_result cfg env cookies s hr
      rcases hck with ⟨he0, _⟩ | ⟨_, hl2⟩
      · exact absurd he0 hu
      · rw [hl] at hl2
        injection hl2 with hl2
        subst hl2
        have hall := runTicks_events_all cs env (fun e => usesCookies cs e)
          rfl (fun p hp => by simp [usesCookies, Event.cookiesUsed]) m s i
        exact (List.all_eq_true.1 hall) e h

theorem c8_witness :
    (cfgAuth.username ≠ "" ∧ envOk.loginResponse = some ["SID=abc"]) ∧
    (((run cfgAuth envOk 2).1.countP fun e => e.isLogin) ≤ 1 ∧
     ((run cfgAuth envOk 2).1.all fun e => usesCookies ["SID=abc"] e) = true) :=
  ⟨⟨by decide, rfl⟩,
   c8_session_fixed_single_login cfgAuth envOk 2 ["SID=abc"] (by decide) rfl⟩

/-- Claim C9 names a real defect: main dereferences the pointer returned by
flag.Duration without ever calling flag.Parse, so the polling interval is
the 1s default whatever the command line says, while a parse of the
arguments would have produced the requested duration (here 5s). -/
theorem c9_flag_never_parsed :
    (∀ args : List String, mainInterval args = timeSecond) ∧
    intervalIfParsed ["--interval", "5s"] = 5 * timeSecond ∧
    mainInterval ["--interval", "5s"] ≠ intervalIfParsed ["--interval", "5s"] :=
  ⟨fun _ => rfl, by decide, by decide⟩

/-- Claim C10: the preferences decode never consults the HTTP status code,
and a JSON-parseable body without a listen_port field decodes to 0, so a
non-200 preferences response with body equal to the empty object seeds the
tracked applied port with 0 instead of failing startup. -/
theorem c10_settings_status_ignored (cfg : Config) (env : Env)
    (hu : cfg.username = "")
    (hs : env.settingsResponse = some (500, JsonBody.obj none))
    (hf : env.initialFetch = some 51413) :
    (∀ st1 st2 : Nat, ∀ b : JsonBody, getQBTSettings st1 b = getQBTSettings st2 b) ∧
    (runStartup cfg env).result = some ([], ⟨51413, 0⟩) := by
  refine ⟨fun st1 st2 b => by cases b <;> rfl, ?_⟩
  simp only [runStartup, hu, ne_eq, not_true_eq_false, if_false]
  simp [afterLogin, hs, hf, getQBTSettings]

theorem c10_witness :
    (cfgNoAuth.username = "" ∧
     env500.settingsResponse = some (500, JsonBody.obj none) ∧
     env500.initialFetch = some 51413) ∧
    ((∀ st1 st2 : Nat, ∀ b : JsonBody, getQBTSettings st1 b = getQBTSettings st2 b) ∧
     (runStartup cfgNoAuth env500).result = some ([], ⟨51413, 0⟩)) :=
  ⟨⟨rfl, rfl, rfl⟩, c10_settings_status_ignored cfgNoAuth env500 rfl rfl rfl⟩

end GluetunQbt
